import Mathlib

/-!
Verification of the AR.js location-based core against its design spec.

The embedding follows the TypeScript sources:
* `SphMercProjection` (spherical-Mercator projection), from
  `sphmerc-projection.ts`;
* `LocationBased` (the GPS positioning engine), from `webcam-renderer.ts`;
* the angle-ordering and angle-smoothing helpers of
  `DeviceOrientationControls`, from `device-orientation-controls.ts`.

JavaScript numbers are embedded as real numbers; `Number.MAX_VALUE` is the
exact rational value of the largest finite IEEE double.  Methods that can
`throw` are embedded as `Except String` valued functions; methods with no
throw path return `Except.ok` unconditionally, mirroring the source.
-/

namespace SphMercProjection

noncomputable section

/-- Constant `HALF_EARTH = 20037508.34` from `sphmerc-projection.ts`. -/
def HALF_EARTH : ℝ := 20037508.34

/-- Method `lonToSphMerc(lon) { return (lon / 180) * HALF_EARTH; }`. -/
def lonToSphMerc (lon : ℝ) : ℝ := lon / 180 * HALF_EARTH

/-- Method `latToSphMerc(lat)`:
`y = log(tan(((90 + lat) * PI) / 360)) / (PI / 180); return (y * HALF_EARTH) / 180`. -/
def latToSphMerc (lat : ℝ) : ℝ :=
  Real.log (Real.tan ((90 + lat) * Real.pi / 360)) / (Real.pi / 180) * HALF_EARTH / 180

/-- Method `sphMercToLon(x) { return (x / HALF_EARTH) * 180; }`. -/
def sphMercToLon (x : ℝ) : ℝ := x / HALF_EARTH * 180

/-- Method `sphMercToLat(y)`:
`lat = (y / HALF_EARTH) * 180; lat = (180 / PI) * (2 * atan(exp((lat * PI) / 180)) - PI / 2)`. -/
def sphMercToLat (y : ℝ) : ℝ :=
  180 / Real.pi * (2 * Real.arctan (Real.exp (y / HALF_EARTH * 180 * Real.pi / 180)) - Real.pi / 2)

/-- Method `project(lon, lat) { return [lonToSphMerc(lon), latToSphMerc(lat)]; }`. -/
def project (lon lat : ℝ) : ℝ × ℝ := (lonToSphMerc lon, latToSphMerc lat)

/-- Method `unproject(projected) { return [sphMercToLon(projected[0]), sphMercToLat(projected[1])]; }`. -/
def unproject (p : ℝ × ℝ) : ℝ × ℝ := (sphMercToLon p.1, sphMercToLat p.2)

/-- The `project` method viewed as a fallible call.  Its body (and the bodies
of `lonToSphMerc` and `latToSphMerc` it calls) contains no conditional and no
`throw`, so the call always returns normally with the computed value. -/
def projectE (lon lat : ℝ) : Except String (ℝ × ℝ) := .ok (project lon lat)

end

end SphMercProjection

namespace DeviceOrientationControls

noncomputable section

/-- Constant `TWO_PI = 2 * Math.PI` from `device-orientation-controls.ts`. -/
def TWO_PI : ℝ := 2 * Real.pi

/-- Result record `{ left, right }` returned by `_orderAngle`. -/
structure AnglePair where
  left : ℝ
  right : ℝ

/-- Method `_orderAngle(a, b, range = TWO_PI)`: returns `{left: a, right: b}`
when `(b > a && |b - a| < range/2) || (a > b && |b - a| > range/2)`, and
`{left: b, right: a}` otherwise. -/
def orderAngle (a b : ℝ) (range : ℝ := TWO_PI) : AnglePair :=
  if (b > a ∧ |b - a| < range / 2) ∨ (a > b ∧ |b - a| > range / 2) then
    { left := a, right := b }
  else
    { left := b, right := a }

/-- Method `_getSmoothedAngle(a, b, k, range = TWO_PI)`: shifts the ordered
angles so the left one is zero (adding the range to the right one if it fell
negative), blends with weight `k` on `a` when `a` is the right-hand angle and
`1 - k` otherwise, undoes the shift and wraps back below `range`. -/
def getSmoothedAngle (a b k : ℝ) (range : ℝ := TWO_PI) : ℝ :=
  let angles := orderAngle a b range
  let angleshift := angles.left
  let origAnglesRight := angles.right
  let leftShifted : ℝ := 0
  let rightShifted0 := angles.right - angleshift
  let rightShifted := if rightShifted0 < 0 then rightShifted0 + range else rightShifted0
  let newangle :=
    if origAnglesRight = b then (1 - k) * rightShifted + k * leftShifted
    else k * rightShifted + (1 - k) * leftShifted
  let unshifted := newangle + angleshift
  if unshifted ≥ range then unshifted - range else unshifted

end

end DeviceOrientationControls

namespace LocationBased

noncomputable section

/-- Exact value of `Number.MAX_VALUE` (the largest finite IEEE double),
the initial value of `distMoved` in `_gpsReceived`. -/
def MAX_VALUE : ℝ := 2 ^ 1024 - 2 ^ 971

/-- Constant `EARTH_RADIUS = 6371000` from `webcam-renderer.ts`. -/
def EARTH_RADIUS : ℝ := 6371000

/-- `THREE.MathUtils.degToRad(degrees) = degrees * PI / 180`. -/
def degToRad (degrees : ℝ) : ℝ := degrees * (Real.pi / 180)

/-- `Math.atan2(y, x)`, embedded as the argument of the complex number
`x + y*I` (the principal value in `(-pi, pi]`, which agrees with `atan2`). -/
def atan2 (y x : ℝ) : ℝ := Complex.arg { re := x, im := y }

/-- The latitude/longitude record kept in `_lastCoords`. -/
structure LatLon where
  latitude : ℝ
  longitude : ℝ

/-- The `coords` member of a GPS position event: longitude, latitude,
optional altitude and optional accuracy. -/
structure Coords where
  longitude : ℝ
  latitude : ℝ
  altitude : Option ℝ := none
  accuracy : Option ℝ := none

/-- A mutable 3D position (`object.position` of a scene object or camera). -/
structure Position3 where
  x : ℝ
  y : ℝ
  z : ℝ

/-- Method `_haversineDist(src, dest)` of `LocationBased` (haversine formula
on the 6,371,000-radius sphere). -/
def haversineDist (src dest : LatLon) : ℝ :=
  let dlongitude := degToRad (dest.longitude - src.longitude)
  let dlatitude := degToRad (dest.latitude - src.latitude)
  let a := Real.sin (dlatitude / 2) * Real.sin (dlatitude / 2) +
    Real.cos (degToRad src.latitude) * Real.cos (degToRad dest.latitude) *
      (Real.sin (dlongitude / 2) * Real.sin (dlongitude / 2))
  let angle := 2 * atan2 (Real.sqrt a) (Real.sqrt (1 - a))
  angle * EARTH_RADIUS

/-- The mutable state of a `LocationBased` engine together with the camera
position it drives (`_camera.position`).  The scene, the projection object
and the platform subscription handle are external collaborators with no part
in the filtering and positioning math. -/
structure State where
  lastCoords : Option LatLon
  gpsMinDistance : ℝ
  gpsMinAccuracy : ℝ
  initialPosition : Option (ℝ × ℝ)
  initialPositionAsOrigin : Bool
  camera : Position3

/-- The string thrown by `lonLatToWorldCoords` in origin mode with no origin
(the quotes of the source string are elided). -/
def originErrorMsg : String :=
  "Trying to use initial position as origin mode with no initial position determined"

/-- Method `lonLatToWorldCoords(lon, lat)`: projects, subtracts the origin
when `initialPositionAsOrigin` is set (throwing when no origin has been
determined), and negates the projected Y to give scene `[x, z]`. -/
def lonLatToWorldCoords (s : State) (lon lat : ℝ) : Except String (ℝ × ℝ) :=
  let projectedPos := SphMercProjection.project lon lat
  if s.initialPositionAsOrigin then
    match s.initialPosition with
    | some ip => .ok (projectedPos.1 - ip.1, -(projectedPos.2 - ip.2))
    | none => .error originErrorMsg
  else
    .ok (projectedPos.1, -projectedPos.2)

/-- Method `setWorldPosition(object, lon, lat, elev)`: computes the world
coordinates, sets `y` from `elev` when it is non-null, then `[x, z]`. -/
def setWorldPosition (s : State) (p : Position3) (lon lat : ℝ) (elev : Option ℝ) :
    Except String Position3 :=
  (lonLatToWorldCoords s lon lat).map fun worldCoords =>
    { x := worldCoords.1, y := elev.getD p.y, z := worldCoords.2 }

/-- Method `setElevation(elev)`: `_camera.position.y = elev`. -/
def setElevation (s : State) (elev : ℝ) : State :=
  { s with camera := { s.camera with y := elev } }

/-- Method `setWorldOrigin(lon, lat)`: `initialPosition = proj.project(lon, lat)`. -/
def setWorldOrigin (s : State) (lon lat : ℝ) : State :=
  { s with initialPosition := some (SphMercProjection.project lon lat) }

/-- Method `_gpsReceived(position)`: the fix acceptance filter and its side
effects.  Returns the updated state paired with the argument of the
`gpsupdate` handler invocation when one happens (`none` when the fix is
dropped).  A throw out of `setWorldPosition` would propagate, hence the
`Except`; the origin is always established before that call so the error case
is unreachable. -/
def gpsReceived (s : State) (position : Coords) :
    Except String (State × Option (Coords × ℝ)) :=
  let posLatLon : LatLon :=
    { latitude := position.latitude, longitude := position.longitude }
  match position.accuracy with
  | none => .ok (s, none)
  | some accuracy =>
    if accuracy ≤ s.gpsMinAccuracy then
      let seeded :=
        match s.lastCoords with
        | none => { s with lastCoords := some posLatLon }
        | some _ => s
      let distMoved :=
        match s.lastCoords with
        | none => MAX_VALUE
        | some last => haversineDist last posLatLon
      if distMoved ≥ seeded.gpsMinDistance then
        let s1 := { seeded with lastCoords := some posLatLon }
        let s2 :=
          if s1.initialPositionAsOrigin && s1.initialPosition.isNone then
            setWorldOrigin s1 position.longitude position.latitude
          else s1
        (setWorldPosition s2 s2.camera position.longitude position.latitude
            position.altitude).map
          fun cam => ({ s2 with camera := cam }, some (position, distMoved))
      else
        .ok (seeded, none)
    else
      .ok (s, none)

/-- Method `fakeGps(lon, lat, elev = null, acc = 0)`: applies `setElevation`
when `elev` is non-null, then feeds a synthetic position carrying no altitude
and accuracy `acc` to `_gpsReceived`. -/
def fakeGps (s : State) (lon lat : ℝ) (elev : Option ℝ := none) (acc : ℝ := 0) :
    Except String (State × Option (Coords × ℝ)) :=
  let s1 :=
    match elev with
    | some e => setElevation s e
    | none => s
  gpsReceived s1 { longitude := lon, latitude := lat, altitude := none, accuracy := some acc }

/-- Constructor options.  `maximumAge` is only forwarded to the platform
subscription and takes no part in the filtering math, so it is not kept. -/
structure Options where
  initialPosition : Option LatLon := none
  initialPositionAsOrigin : Bool := false
  gpsMinDistance : Option ℝ := none
  gpsMinAccuracy : Option ℝ := none

/-- The `LocationBased` constructor: `_lastCoords = null`,
`_gpsMinDistance = 0`, `_gpsMinAccuracy = 100` as defaults overridden by
`setGpsOptions`; a supplied `initialPosition` is projected; origin mode is on
when an initial position was supplied or `initialPositionAsOrigin` is true. -/
def init (options : Options) (camera : Position3) : State :=
  { lastCoords := none
    gpsMinDistance := options.gpsMinDistance.getD 0
    gpsMinAccuracy := options.gpsMinAccuracy.getD 100
    initialPosition := options.initialPosition.map fun ll =>
      SphMercProjection.project ll.longitude ll.latitude
    initialPositionAsOrigin := options.initialPosition.isSome || options.initialPositionAsOrigin
    camera := camera }

/-- The acceptance condition of the filter in `_gpsReceived`, stated on the
coordinates and accuracy of an incoming fix: accuracy within the threshold,
and the movement distance (which is left at `MAX_VALUE` when no prior
accepted fix exists) at least the minimum-movement threshold. -/
def accepts (s : State) (lon lat acc : ℝ) : Prop :=
  acc ≤ s.gpsMinAccuracy ∧
    match s.lastCoords with
    | none => MAX_VALUE ≥ s.gpsMinDistance
    | some last => haversineDist last ⟨lat, lon⟩ ≥ s.gpsMinDistance

end

end LocationBased

namespace SphMercProjection

/-- Round trip on the longitude axis. -/
theorem sphMercToLon_lonToSphMerc (lon : ℝ) : sphMercToLon (lonToSphMerc lon) = lon := by
  have hH : (HALF_EARTH : ℝ) ≠ 0 := by norm_num [HALF_EARTH]
  unfold sphMercToLon lonToSphMerc
  field_simp
  ring

/-- Round trip on the latitude axis, for latitudes strictly inside the poles. -/
theorem sphMercToLat_latToSphMerc (lat : ℝ) (h1 : -90 < lat) (h2 : lat < 90) :
    sphMercToLat (latToSphMerc lat) = lat := by
  have hpi : (0:ℝ) < Real.pi := Real.pi_pos
  have hH : (HALF_EARTH : ℝ) ≠ 0 := by norm_num [HALF_EARTH]
  have hθ1 : (0:ℝ) < (90 + lat) * Real.pi / 360 := by
    have : (0:ℝ) < 90 + lat := by linarith
    positivity
  have hθ2 : (90 + lat) * Real.pi / 360 < Real.pi / 2 := by
    rw [div_lt_div_iff₀ (by norm_num) (by norm_num : (0:ℝ) < 2)]
    have : (90 + lat) * 2 < 360 := by linarith
    calc (90 + lat) * Real.pi * 2 = (90 + lat) * 2 * Real.pi := by ring
    _ < 360 * Real.pi := mul_lt_mul_of_pos_right this hpi
    _ = Real.pi * 360 := by ring
  have htan : 0 < Real.tan ((90 + lat) * Real.pi / 360) :=
    Real.tan_pos_of_pos_of_lt_pi_div_two hθ1 hθ2
  unfold sphMercToLat latToSphMerc
  have harg :
      Real.log (Real.tan ((90 + lat) * Real.pi / 360)) / (Real.pi / 180) * HALF_EARTH / 180 /
          HALF_EARTH * 180 * Real.pi / 180 =
        Real.log (Real.tan ((90 + lat) * Real.pi / 360)) := by
    field_simp
    ring
  rw [harg, Real.exp_log htan,
    Real.arctan_tan (by linarith : -(Real.pi / 2) < (90 + lat) * Real.pi / 360) hθ2]
  field_simp
  ring

end SphMercProjection

open SphMercProjection in
/-- Claim C7: for every longitude and every latitude strictly between -90 and 90,
`unproject (project lon lat)` reconstructs `(lon, lat)` — exact over the
real-number embedding of JavaScript arithmetic. -/
theorem C7_unproject_project_roundtrip (lon lat : ℝ) (h1 : -90 < lat) (h2 : lat < 90) :
    unproject (project lon lat) = (lon, lat) := by
  unfold unproject project
  dsimp only
  rw [sphMercToLon_lonToSphMerc, sphMercToLat_latToSphMerc lat h1 h2]

/-- Witness for claim C7 at the concrete point `(lon, lat) = (5, 0)`. -/
theorem C7_roundtrip_witness :
    (-90:ℝ) < 0 ∧ (0:ℝ) < 90 ∧
      SphMercProjection.unproject (SphMercProjection.project 5 0) = (5, 0) :=
  ⟨by norm_num, by norm_num, C7_unproject_project_roundtrip 5 0 (by norm_num) (by norm_num)⟩

open SphMercProjection in
/-- Counterexample to claim C3: `project` called at latitude exactly -90 does
not fail — the source body has no domain check and no throw, so the call
returns `Except.ok` with the value of the singular expression, which in the
real-number embedding (Mathlib junk values `tan 0 = 0`, `log 0 = 0`) is `0`. -/
theorem C3_counterexample_south_pole_returns :
    SphMercProjection.projectE 0 (-90) = Except.ok ((0 : ℝ), (0 : ℝ)) := by
  unfold projectE project lonToSphMerc latToSphMerc
  norm_num

open SphMercProjection in
/-- Amended claim C3: for every longitude, `project` at latitude exactly +90 or
-90 does not fail with a DomainError; it returns normally.  The latitude
coordinate it returns is the junk value of the singular Mercator expression
(0 in the real-number embedding, where `Real.tan (pi/2) = 0` and
`Real.log 0 = 0`; IEEE arithmetic instead yields -Infinity at -90 and a large
finite value at +90, so the code also does not meet the
`never returns NaN or Infinity` guarantee). -/
theorem C3_amended_poles_return_normally (lon : ℝ) :
    SphMercProjection.projectE lon 90 = Except.ok (SphMercProjection.lonToSphMerc lon, 0) ∧
      SphMercProjection.projectE lon (-90) = Except.ok (SphMercProjection.lonToSphMerc lon, 0) := by
  constructor
  · unfold projectE project latToSphMerc
    have h : ((90:ℝ) + 90) * Real.pi / 360 = Real.pi / 2 := by ring
    rw [h, Real.tan_pi_div_two, Real.log_zero]
    norm_num
  · unfold projectE project latToSphMerc
    norm_num

namespace DeviceOrientationControls

/-- The `_orderAngle` result is always one of the two argument orderings. -/
theorem orderAngle_eq_or (a b range : ℝ) :
    orderAngle a b range = { left := a, right := b } ∨
      orderAngle a b range = { left := b, right := a } := by
  unfold orderAngle
  split_ifs
  · exact Or.inl rfl
  · exact Or.inr rfl

end DeviceOrientationControls

open DeviceOrientationControls in
/-- Counterexample to claim C2: at angles exactly half the range apart
(`a = 0`, `b = 1`, `range = 2`), `_orderAngle` returns `{left: b, right: a}`,
so the tie is resolved with the second argument `b` as the left angle, not the
first argument `a` as the claim states. -/
theorem C2_counterexample_tie_left_is_b :
    |(1:ℝ) - 0| = 2 / 2 ∧
      orderAngle 0 1 2 = { left := 1, right := 0 } ∧
      (orderAngle 0 1 2).left ≠ 0 := by
  refine ⟨by rw [sub_zero, abs_one]; norm_num, ?_, ?_⟩
  · unfold orderAngle
    rw [if_neg]
    rw [sub_zero, abs_one]
    rintro (⟨_, hlt⟩ | ⟨hgt, _⟩)
    · norm_num at hlt
    · norm_num at hgt
  · unfold orderAngle
    rw [if_neg]
    · norm_num
    · rw [sub_zero, abs_one]
      rintro (⟨_, hlt⟩ | ⟨hgt, _⟩)
      · norm_num at hlt
      · norm_num at hgt

open DeviceOrientationControls in
/-- Amended claim C2: for every pair of angles `a` (current) and `b`
(previous) that are exactly half the range apart, `_orderAngle` resolves the
tie by treating the SECOND argument `b` as the left angle and the first
argument `a` as the right angle (both comparisons in the ordering condition
are strict, so a tie falls through to the else branch). -/
theorem C2_amended_tie_favors_b_as_left (a b range : ℝ) (h : |b - a| = range / 2) :
    orderAngle a b range = { left := b, right := a } := by
  unfold orderAngle
  rw [if_neg]
  rintro (⟨_, hlt⟩ | ⟨_, hgt⟩)
  · exact absurd h (ne_of_lt hlt)
  · exact absurd h (ne_of_gt hgt)

open DeviceOrientationControls in
/-- Witness for the amended claim C2 at `a = 0`, `b = 1`, `range = 2`. -/
theorem C2_amended_witness :
    |(1:ℝ) - 0| = 2 / 2 ∧
      orderAngle 0 1 2 = { left := 1, right := 0 } :=
  ⟨by rw [sub_zero, abs_one]; norm_num,
    C2_amended_tie_favors_b_as_left 0 1 2 (by rw [sub_zero, abs_one]; norm_num)⟩

open DeviceOrientationControls in
/-- Claim C8: for every current angle, previous angle and range, with both
angles within `[0, range)`, `_getSmoothedAngle(current, previous, 1, range)`
equals `current` — blend factor 1 is a pure passthrough with no smoothing. -/
theorem C8_blend_factor_one_passthrough (current previous range : ℝ)
    (hc0 : 0 ≤ current) (hc1 : current < range)
    (_hp0 : 0 ≤ previous) (hp1 : previous < range) :
    getSmoothedAngle current previous 1 range = current := by
  rcases orderAngle_eq_or current previous range with h | h <;>
    simp only [getSmoothedAngle, h] <;>
    split_ifs <;> first
      | ring1
      | linarith

open DeviceOrientationControls in
/-- Witness for claim C8 at `current = 1`, `previous = 0`, `range = 2`. -/
theorem C8_passthrough_witness :
    (0:ℝ) ≤ 1 ∧ (1:ℝ) < 2 ∧ (0:ℝ) ≤ 0 ∧ (0:ℝ) < 2 ∧
      getSmoothedAngle 1 0 1 2 = 1 :=
  ⟨by norm_num, by norm_num, le_refl 0, by norm_num,
    C8_blend_factor_one_passthrough 1 0 2 (by norm_num) (by norm_num) (le_refl 0) (by norm_num)⟩

namespace LocationBased

/-- `Number.MAX_VALUE` is positive. -/
theorem MAX_VALUE_pos : (0:ℝ) < MAX_VALUE := by
  unfold MAX_VALUE
  norm_num

end LocationBased

open LocationBased in
/-- Claim C9: placement (`setWorldPosition` and the `lonLatToWorldCoords`
conversion it uses) fails with the StateError exactly when origin-translation
mode is active and no origin has been established; in every other
configuration it succeeds with a value. -/
theorem C9_placement_state_error_iff (s : LocationBased.State)
    (p : LocationBased.Position3) (lon lat : ℝ) (elev : Option ℝ) :
    (lonLatToWorldCoords s lon lat = .error originErrorMsg ↔
      s.initialPositionAsOrigin = true ∧ s.initialPosition = none) ∧
    (setWorldPosition s p lon lat elev = .error originErrorMsg ↔
      s.initialPositionAsOrigin = true ∧ s.initialPosition = none) ∧
    (¬(s.initialPositionAsOrigin = true ∧ s.initialPosition = none) →
      ∃ wc q, lonLatToWorldCoords s lon lat = .ok wc ∧
        setWorldPosition s p lon lat elev = .ok q) := by
  unfold setWorldPosition lonLatToWorldCoords
  cases horig : s.initialPositionAsOrigin <;> cases hip : s.initialPosition <;>
    simp [horig, hip, Except.map]

open LocationBased in
/-- Witness for claim C9: with origin-translation mode on and no origin, the
conversion fails with the StateError. -/
theorem C9_placement_witness :
    lonLatToWorldCoords
        { lastCoords := none, gpsMinDistance := 0, gpsMinAccuracy := 100,
          initialPosition := none, initialPositionAsOrigin := true,
          camera := { x := 0, y := 0, z := 0 } } 10 50 = .error originErrorMsg :=
  (C9_placement_state_error_iff _ { x := 0, y := 0, z := 0 } 10 50 none).1.mpr ⟨rfl, rfl⟩

open LocationBased in
/-- Counterexample to claim C1: a first fix whose accuracy field is absent is
dropped outright — the state is returned unchanged (the fix is not recorded
in `_lastCoords`) and no handler fires, although the claim requires such a
fix to proceed to the unconditional-first-fix logic and be accepted. -/
theorem C1_counterexample_absent_accuracy_dropped :
    gpsReceived
        { lastCoords := none, gpsMinDistance := 0, gpsMinAccuracy := 100,
          initialPosition := none, initialPositionAsOrigin := false,
          camera := { x := 1, y := 2, z := 3 } }
        { longitude := 10, latitude := 50, altitude := none, accuracy := none } =
      .ok ({ lastCoords := none, gpsMinDistance := 0, gpsMinAccuracy := 100,
             initialPosition := none, initialPositionAsOrigin := false,
             camera := { x := 1, y := 2, z := 3 } }, none) := rfl

open LocationBased in
/-- Amended claim C1: the acceptance filter lets a fix proceed to the
first-fix / minimum-movement logic only when its accuracy field is present
and does not exceed the threshold; a fix whose accuracy field is absent is
rejected exactly like one whose accuracy exceeds the threshold — no state
change and no handler invocation. -/
theorem C1_amended_accuracy_gate (s : LocationBased.State) (pos : LocationBased.Coords)
    (h : pos.accuracy = none ∨ ∃ acc, pos.accuracy = some acc ∧ s.gpsMinAccuracy < acc) :
    gpsReceived s pos = .ok (s, none) := by
  unfold gpsReceived
  rcases h with h | ⟨acc, h, hacc⟩ <;> rw [h]
  dsimp only
  rw [if_neg (not_le.mpr hacc)]

open LocationBased in
/-- Witness for the amended claim C1 at a concrete accuracy-free fix. -/
theorem C1_amended_witness :
    gpsReceived
        { lastCoords := none, gpsMinDistance := 0, gpsMinAccuracy := 100,
          initialPosition := none, initialPositionAsOrigin := true,
          camera := { x := 0, y := 0, z := 0 } }
        { longitude := 1, latitude := 2, altitude := none, accuracy := none } =
      .ok ({ lastCoords := none, gpsMinDistance := 0, gpsMinAccuracy := 100,
             initialPosition := none, initialPositionAsOrigin := true,
             camera := { x := 0, y := 0, z := 0 } }, none) :=
  C1_amended_accuracy_gate _ _ (Or.inl rfl)

namespace LocationBased

/-- The accepted branch of `_gpsReceived` never produces a result without a
handler invocation: its map attaches `some` to the event component. -/
theorem accepted_branch_ne_none {e : Except String Position3}
    {g : Position3 → State} {ev : Coords × ℝ} {s' : State} :
    e.map (fun cam => (g cam, some ev)) ≠ .ok (s', none) := by
  cases e <;> simp [Except.map]

end LocationBased

open LocationBased in
/-- Counterexample to claim C6: with no prior accepted fix and a
minimum-movement threshold exceeding `Number.MAX_VALUE` (`Infinity` in
JavaScript), a good-accuracy first fix fails the movement check — the handler
is not invoked — and yet `_lastCoords` is seeded with its coordinates, so the
engine state does change on this rejected fix. -/
theorem C6_counterexample_rejected_fix_seeds_lastCoords :
    gpsReceived
        { lastCoords := none, gpsMinDistance := MAX_VALUE + 1, gpsMinAccuracy := 100,
          initialPosition := none, initialPositionAsOrigin := false,
          camera := { x := 0, y := 0, z := 0 } }
        { longitude := 3, latitude := 4, altitude := none, accuracy := some 10 } =
      .ok ({ lastCoords := some { latitude := 4, longitude := 3 },
             gpsMinDistance := MAX_VALUE + 1, gpsMinAccuracy := 100,
             initialPosition := none, initialPositionAsOrigin := false,
             camera := { x := 0, y := 0, z := 0 } }, none) ∧
      ({ lastCoords := some { latitude := 4, longitude := 3 },
         gpsMinDistance := MAX_VALUE + 1, gpsMinAccuracy := 100,
         initialPosition := none, initialPositionAsOrigin := false,
         camera := { x := 0, y := 0, z := 0 } } : LocationBased.State) ≠
        { lastCoords := none, gpsMinDistance := MAX_VALUE + 1, gpsMinAccuracy := 100,
          initialPosition := none, initialPositionAsOrigin := false,
          camera := { x := 0, y := 0, z := 0 } } := by
  constructor
  · unfold gpsReceived
    dsimp only
    rw [if_pos (by norm_num : (10:ℝ) ≤ 100),
      if_neg (by simp only [not_le] ; linarith : ¬MAX_VALUE ≥ MAX_VALUE + 1)]
  · simp

open LocationBased in
/-- Amended claim C6: whenever `_gpsReceived` drops a fix (no accepted-fix
handler invocation), the camera position, the origin and all configuration
are unchanged, and the state is fully unchanged except in one corner case:
when no prior accepted fix exists and the minimum-movement threshold exceeds
`Number.MAX_VALUE`, the rejected first fix still seeds the
last-accepted-fix record with its coordinates. -/
theorem C6_amended_rejected_fix_leaves_state (s s' : LocationBased.State)
    (pos : LocationBased.Coords)
    (h : gpsReceived s pos = .ok (s', none)) :
    s'.camera = s.camera ∧ s'.initialPosition = s.initialPosition ∧
      s'.gpsMinDistance = s.gpsMinDistance ∧ s'.gpsMinAccuracy = s.gpsMinAccuracy ∧
      s'.initialPositionAsOrigin = s.initialPositionAsOrigin ∧
      (s' = s ∨
        (s.lastCoords = none ∧ MAX_VALUE < s.gpsMinDistance ∧
          s' = { s with lastCoords := some ⟨pos.latitude, pos.longitude⟩ })) := by
  obtain ⟨lon, lat, alt, acc⟩ := pos
  obtain ⟨lc, minD, minA, ip, orig, cam⟩ := s
  unfold gpsReceived at h
  cases acc with
  | none =>
    dsimp only at h
    simp only [Except.ok.injEq, Prod.mk.injEq] at h
    obtain ⟨rfl, -⟩ := h
    exact ⟨rfl, rfl, rfl, rfl, rfl, Or.inl rfl⟩
  | some a =>
    cases lc with
    | none =>
      dsimp only at h
      by_cases hacc : a ≤ minA
      · rw [if_pos hacc] at h
        by_cases hd : MAX_VALUE ≥ minD
        · rw [if_pos hd] at h
          exact absurd h accepted_branch_ne_none
        · rw [if_neg hd] at h
          simp only [Except.ok.injEq, Prod.mk.injEq] at h
          obtain ⟨rfl, -⟩ := h
          exact ⟨rfl, rfl, rfl, rfl, rfl, Or.inr ⟨rfl, not_le.mp hd, rfl⟩⟩
      · rw [if_neg hacc] at h
        simp only [Except.ok.injEq, Prod.mk.injEq] at h
        obtain ⟨rfl, -⟩ := h
        exact ⟨rfl, rfl, rfl, rfl, rfl, Or.inl rfl⟩
    | some last =>
      dsimp only at h
      by_cases hacc : a ≤ minA
      · rw [if_pos hacc] at h
        by_cases hd : haversineDist last ⟨lat, lon⟩ ≥ minD
        · rw [if_pos hd] at h
          exact absurd h accepted_branch_ne_none
        · rw [if_neg hd] at h
          simp only [Except.ok.injEq, Prod.mk.injEq] at h
          obtain ⟨rfl, -⟩ := h
          exact ⟨rfl, rfl, rfl, rfl, rfl, Or.inl rfl⟩
      · rw [if_neg hacc] at h
        simp only [Except.ok.injEq, Prod.mk.injEq] at h
        obtain ⟨rfl, -⟩ := h
        exact ⟨rfl, rfl, rfl, rfl, rfl, Or.inl rfl⟩

open LocationBased in
/-- Witness for the amended claim C6 at a concrete dropped fix (accuracy
absent), showing the hypothesis holds there and the state is unchanged. -/
theorem C6_amended_witness :
    gpsReceived
        { lastCoords := none, gpsMinDistance := 5, gpsMinAccuracy := 100,
          initialPosition := none, initialPositionAsOrigin := false,
          camera := { x := 7, y := 8, z := 9 } }
        { longitude := 1, latitude := 2, altitude := none, accuracy := none } =
      .ok ({ lastCoords := none, gpsMinDistance := 5, gpsMinAccuracy := 100,
             initialPosition := none, initialPositionAsOrigin := false,
             camera := { x := 7, y := 8, z := 9 } }, none) ∧
    ({ lastCoords := none, gpsMinDistance := 5, gpsMinAccuracy := 100,
       initialPosition := none, initialPositionAsOrigin := false,
       camera := { x := 7, y := 8, z := 9 } } : LocationBased.State).camera =
      ({ lastCoords := none, gpsMinDistance := 5, gpsMinAccuracy := 100,
         initialPosition := none, initialPositionAsOrigin := false,
         camera := { x := 7, y := 8, z := 9 } } : LocationBased.State).camera :=
  ⟨rfl,
    (C6_amended_rejected_fix_leaves_state
      { lastCoords := none, gpsMinDistance := 5, gpsMinAccuracy := 100,
        initialPosition := none, initialPositionAsOrigin := false,
        camera := { x := 7, y := 8, z := 9 } }
      { lastCoords := none, gpsMinDistance := 5, gpsMinAccuracy := 100,
        initialPosition := none, initialPositionAsOrigin := false,
        camera := { x := 7, y := 8, z := 9 } }
      { longitude := 1, latitude := 2, altitude := none, accuracy := none }
      rfl).1⟩

namespace LocationBased

/-- After the origin-establishing step of the accepted branch,
`setWorldPosition` always succeeds: either origin mode is off, or an origin
exists, or one was just established from the incoming fix. -/
theorem setWorldPosition_origin_adjusted_ok (s1 : State) (olon olat lon lat : ℝ)
    (p : Position3) (elev : Option ℝ) :
    ∃ q, setWorldPosition
        (if s1.initialPositionAsOrigin && s1.initialPosition.isNone then
          setWorldOrigin s1 olon olat else s1) p lon lat elev = .ok q := by
  unfold setWorldPosition lonLatToWorldCoords setWorldOrigin
  cases horig : s1.initialPositionAsOrigin <;> cases hip : s1.initialPosition <;>
    simp [horig, hip, Except.map]

end LocationBased

open LocationBased in
/-- Claim C10: when the very first fix is accepted (no prior accepted fix
exists), the accepted-fix handler is invoked with movement distance exactly
`Number.MAX_VALUE`; when a prior accepted fix exists, the handler instead
receives the computed haversine distance. -/
theorem C10_first_fix_distance_max_value (s : LocationBased.State)
    (pos : LocationBased.Coords) (acc : ℝ)
    (hacc : pos.accuracy = some acc) (hok : acc ≤ s.gpsMinAccuracy) :
    (s.lastCoords = none → MAX_VALUE ≥ s.gpsMinDistance →
      ∃ s', gpsReceived s pos = .ok (s', some (pos, MAX_VALUE))) ∧
    (∀ last, s.lastCoords = some last →
      haversineDist last ⟨pos.latitude, pos.longitude⟩ ≥ s.gpsMinDistance →
      ∃ s', gpsReceived s pos =
        .ok (s', some (pos, haversineDist last ⟨pos.latitude, pos.longitude⟩))) := by
  obtain ⟨lon, lat, alt, pacc⟩ := pos
  obtain ⟨lc, minD, minA, ip, orig, cam⟩ := s
  dsimp only at hacc hok ⊢
  subst hacc
  constructor
  · intro hlc hd
    subst hlc
    unfold gpsReceived
    dsimp only
    rw [if_pos hok, if_pos hd]
    obtain ⟨q, hq⟩ :=
      setWorldPosition_origin_adjusted_ok
        { lastCoords := some { latitude := lat, longitude := lon }, gpsMinDistance := minD,
          gpsMinAccuracy := minA, initialPosition := ip, initialPositionAsOrigin := orig,
          camera := cam } lon lat lon lat _ alt
    rw [hq]
    exact ⟨_, rfl⟩
  · intro last hlc hd
    subst hlc
    unfold gpsReceived
    dsimp only
    rw [if_pos hok, if_pos hd]
    obtain ⟨q, hq⟩ :=
      setWorldPosition_origin_adjusted_ok
        { lastCoords := some { latitude := lat, longitude := lon }, gpsMinDistance := minD,
          gpsMinAccuracy := minA, initialPosition := ip, initialPositionAsOrigin := orig,
          camera := cam } lon lat lon lat _ alt
    rw [hq]
    exact ⟨_, rfl⟩

open LocationBased in
/-- Witness for claim C10: a concrete accepted first fix produces a handler
invocation carrying `Number.MAX_VALUE` as the movement distance. -/
theorem C10_first_fix_witness :
    ∃ s', gpsReceived
        { lastCoords := none, gpsMinDistance := 0, gpsMinAccuracy := 100,
          initialPosition := none, initialPositionAsOrigin := false,
          camera := { x := 0, y := 0, z := 0 } }
        { longitude := 10, latitude := 50, altitude := none, accuracy := some 10 } =
      .ok (s', some ({ longitude := 10, latitude := 50, altitude := none,
                       accuracy := some 10 }, MAX_VALUE)) :=
  (C10_first_fix_distance_max_value _ _ 10 rfl (by norm_num)).1 rfl
    (le_of_lt MAX_VALUE_pos)

open LocationBased in
/-- Claim C5: with the engine constructed with `initialPositionAsOrigin =
true` and no explicit origin, a first fix at `(lon = 10, lat = 50,
accuracy = 10)` is accepted (no prior fix exists), the origin is established
at `(10, 50)` (its projection is stored as `initialPosition`), and the camera
scene position becomes `x = 0`, `z = 0`, with `y` set from the altitude when
present and unchanged otherwise. -/
theorem C5_first_fix_as_origin (cx cy cz : ℝ) (alt : Option ℝ) :
    gpsReceived
        (init { initialPosition := none, initialPositionAsOrigin := true,
                gpsMinDistance := none, gpsMinAccuracy := none }
          { x := cx, y := cy, z := cz })
        { longitude := 10, latitude := 50, altitude := alt, accuracy := some 10 } =
      .ok ({ lastCoords := some { latitude := 50, longitude := 10 },
             gpsMinDistance := 0, gpsMinAccuracy := 100,
             initialPosition := some (SphMercProjection.project 10 50),
             initialPositionAsOrigin := true,
             camera := { x := 0, y := alt.getD cy, z := 0 } },
        some ({ longitude := 10, latitude := 50, altitude := alt, accuracy := some 10 },
          MAX_VALUE)) := by
  unfold init gpsReceived
  dsimp only [Option.getD, Option.map, Option.isSome]
  rw [if_pos (by norm_num : (10:ℝ) ≤ 100)]
  rw [if_pos (show MAX_VALUE ≥ 0 from MAX_VALUE_pos.le)]
  simp only [Option.isNone_none, Bool.or_true, Bool.and_self, if_true]
  unfold setWorldOrigin setWorldPosition lonLatToWorldCoords
  simp [Except.map, sub_self]
  cases alt <;> rfl

namespace LocationBased

/-- The haversine distance from a point to itself is zero. -/
theorem haversineDist_self (p : LatLon) : haversineDist p p = 0 := by
  unfold haversineDist degToRad atan2
  simp only [sub_self, zero_mul, zero_div, Real.sin_zero, mul_zero, zero_add,
    add_zero, Real.sqrt_zero, sub_zero, Real.sqrt_one]
  have h1 : ({ re := 1, im := 0 } : ℂ) = 1 := rfl
  rw [h1, Complex.arg_one]
  ring

end LocationBased

open LocationBased in
/-- Counterexample to claim C4: a rejected synthetic fix with a non-null
elevation still changes the engine state.  With a prior accepted fix at the
same spot and `gpsMinDistance = 50`, `fakeGps(10, 50, 99, 10)` is rejected by
the movement check (distance 0), yet the camera elevation has already been
set to 99 before the filter ran; the platform-delivered fix with the same
coordinates and accuracy leaves the state fully unchanged. -/
theorem C4_counterexample_rejected_fakeGps_changes_state :
    fakeGps
        { lastCoords := some { latitude := 50, longitude := 10 }, gpsMinDistance := 50,
          gpsMinAccuracy := 100, initialPosition := none, initialPositionAsOrigin := false,
          camera := { x := 0, y := 5, z := 0 } } 10 50 (some 99) 10 =
      .ok ({ lastCoords := some { latitude := 50, longitude := 10 }, gpsMinDistance := 50,
             gpsMinAccuracy := 100, initialPosition := none, initialPositionAsOrigin := false,
             camera := { x := 0, y := 99, z := 0 } }, none) ∧
    gpsReceived
        { lastCoords := some { latitude := 50, longitude := 10 }, gpsMinDistance := 50,
          gpsMinAccuracy := 100, initialPosition := none, initialPositionAsOrigin := false,
          camera := { x := 0, y := 5, z := 0 } }
        { longitude := 10, latitude := 50, altitude := some 99, accuracy := some 10 } =
      .ok ({ lastCoords := some { latitude := 50, longitude := 10 }, gpsMinDistance := 50,
             gpsMinAccuracy := 100, initialPosition := none, initialPositionAsOrigin := false,
             camera := { x := 0, y := 5, z := 0 } }, none) ∧
    ((99:ℝ) ≠ 5) := by
  refine ⟨?_, ?_, by norm_num⟩
  · unfold fakeGps setElevation gpsReceived
    dsimp only
    rw [if_pos (by norm_num : (10:ℝ) ≤ 100), haversineDist_self,
      if_neg (by norm_num : ¬(0:ℝ) ≥ 50)]
  · unfold gpsReceived
    dsimp only
    rw [if_pos (by norm_num : (10:ℝ) ≤ 100), haversineDist_self,
      if_neg (by norm_num : ¬(0:ℝ) ≥ 50)]

open LocationBased in
/-- Amended claim C4: `fakeGps(lon, lat, elev, acc)` equals `setElevation`
applied first (when `elev` is non-null) followed by the identical acceptance
filter on a synthetic fix carrying no altitude.  Hence with `elev = null` it
is exactly equivalent to a platform fix with the same coordinates and
accuracy; with a non-null elevation, an accepted synthetic fix yields the
same final state as a platform fix carrying that altitude, but the elevation
is applied before the filter, so it persists even when the fix is rejected
(the counterexample) — unlike a platform fix, which then changes nothing. -/
theorem C4_amended_fakeGps_equivalence (s : LocationBased.State) (lon lat acc : ℝ) :
    (fakeGps s lon lat none acc =
      gpsReceived s { longitude := lon, latitude := lat, altitude := none,
                      accuracy := some acc }) ∧
    (∀ e, fakeGps s lon lat (some e) acc =
      gpsReceived (setElevation s e)
        { longitude := lon, latitude := lat, altitude := none, accuracy := some acc }) ∧
    (∀ e, accepts s lon lat acc →
      (fakeGps s lon lat (some e) acc).map Prod.fst =
        (gpsReceived s { longitude := lon, latitude := lat, altitude := some e,
                         accuracy := some acc }).map Prod.fst) := by
  refine ⟨rfl, fun e => rfl, fun e hacc => ?_⟩
  obtain ⟨lc, minD, minA, ip, orig, ⟨px, py, pz⟩⟩ := s
  unfold accepts at hacc
  cases lc with
  | none =>
    obtain ⟨h1, h2⟩ := hacc
    dsimp only at h1 h2
    cases orig <;> rcases ip with _ | ⟨ipx, ipy⟩ <;>
      (unfold fakeGps setElevation gpsReceived setWorldPosition lonLatToWorldCoords
        setWorldOrigin
       simp [Except.map, h1, h2])
  | some last =>
    obtain ⟨h1, h2⟩ := hacc
    dsimp only at h1 h2
    cases orig <;> rcases ip with _ | ⟨ipx, ipy⟩ <;>
      (unfold fakeGps setElevation gpsReceived setWorldPosition lonLatToWorldCoords
        setWorldOrigin
       simp [Except.map, h1, h2])

open LocationBased in
/-- Witness for the amended claim C4: an accepted synthetic fix with
elevation 99 yields the same final state as a platform fix with altitude 99. -/
theorem C4_amended_witness :
    (fakeGps
        { lastCoords := none, gpsMinDistance := 0, gpsMinAccuracy := 100,
          initialPosition := none, initialPositionAsOrigin := false,
          camera := { x := 0, y := 5, z := 0 } } 10 50 (some 99) 10).map Prod.fst =
      (gpsReceived
          { lastCoords := none, gpsMinDistance := 0, gpsMinAccuracy := 100,
            initialPosition := none, initialPositionAsOrigin := false,
            camera := { x := 0, y := 5, z := 0 } }
          { longitude := 10, latitude := 50, altitude := some 99,
            accuracy := some 10 }).map Prod.fst :=
  (C4_amended_fakeGps_equivalence
      { lastCoords := none, gpsMinDistance := 0, gpsMinAccuracy := 100,
        initialPosition := none, initialPositionAsOrigin := false,
        camera := { x := 0, y := 5, z := 0 } } 10 50 10).2.2 99
    ⟨by norm_num, MAX_VALUE_pos.le⟩
